import Mathlib

/-!
Verification of the generation stage of `@contentlayer/core`
(`src/packages/@contentlayer/core/src/generation/generate-dotpkg.ts`).

The TypeScript source is shallowly embedded: strings stay strings, records
become structures, the effect pipeline becomes explicit state passing, and
every fallible filesystem primitive is driven by an explicit behaviour
oracle (`FsBehavior`) so that both the success and the failure paths of the
source are represented.  The embedded definitions keep the source's names
wherever Lean allows it.
-/

namespace Gen

/-- A filesystem operation attempted by the generator, in program order.
`rm` models `fs.rm(path, {force: true})`, `write` models
`fs.writeFile(path, content)`, `mkdir` models `fs.mkdirp(path)`. -/
inductive FsOp where
  | rm (path : String)
  | write (path : String) (content : String)
  | mkdir (path : String)
  | bundle (outfile : String)
  deriving DecidableEq, Repr

/-- The typed error channel (`GenerateDotpkgError` in the source). -/
inductive GenError where
  | rmError (path : String)
  | writeFileError (path : String)
  | mkdirError (path : String)
  | esbuildError
  | sourceProvideSchemaError
  | sourceFetchDataError
  | successCallbackError
  deriving DecidableEq, Repr

/-- Behaviour oracle for the fallible filesystem / bundler collaborators:
per-path failure switches for `fs.rm` / `fs.writeFile` / `fs.mkdirp`, and a
switch for the esbuild invocation. -/
structure FsBehavior where
  rmFails : String → Bool
  writeFails : String → Bool
  mkdirFails : String → Bool
  esbuildFails : Bool

/-- The behaviour in which every filesystem / bundler operation succeeds. -/
def noFailFs : FsBehavior :=
  ⟨fun _ => false, fun _ => false, fun _ => false, false⟩

/-- Association-list lookup (used for both the on-disk file map and the
`WrittenFilesCache`, which in the source are plain string-keyed records). -/
def assocFind (m : List (String × String)) (k : String) : Option String :=
  match m with
  | [] => none
  | (k', v) :: rest => if k' = k then some v else assocFind rest k

/-- Association-list update: `m[k] = v`. -/
def assocSet (m : List (String × String)) (k v : String) : List (String × String) :=
  match m with
  | [] => [(k, v)]
  | (k', v') :: rest => if k' = k then (k, v) :: rest else (k', v') :: assocSet rest k v

/-- Association-list removal (models `fs.rm` on the file map; with
`force: true` a missing key is not an error). -/
def assocErase (m : List (String × String)) (k : String) : List (String × String) :=
  match m with
  | [] => []
  | (k', v') :: rest => if k' = k then assocErase rest k else (k', v') :: assocErase rest k

/-- Outcome of one cached write (or of a batch): the attempted filesystem
operations in order, the resulting file map, the resulting
`WrittenFilesCache`, and the typed error if one occurred. -/
structure WriteOutcome where
  ops : List FsOp
  files : List (String × String)
  cache : List (String × String)
  err : Option GenError
  deriving DecidableEq, Repr

/-- The `if (documentHash) writtenFilesCache[filePath] = documentHash` line:
JavaScript truthiness, so an *empty string* hash is never stored. -/
def storeHash (cache : List (String × String)) (filePath : String)
    (documentHash : Option String) : List (String × String) :=
  match documentHash with
  | some h => if h = "" then cache else assocSet cache filePath h
  | none => cache

/-- The `fileIsUpToDate` test of the source:
`documentHash !== undefined && writtenFilesCache[filePath] === documentHash`. -/
def fileIsUpToDate (cache : List (String × String)) (filePath : String)
    (documentHash : Option String) : Prop :=
  documentHash.isSome = true ∧ assocFind cache filePath = documentHash

instance (cache : List (String × String)) (filePath : String) (documentHash : Option String) :
    Decidable (fileIsUpToDate cache filePath documentHash) := by
  unfold fileIsUpToDate; infer_instance

/-- Embedding of `writeFileWithWrittenFilesCache` (generate-dotpkg.ts,
lines 307-335).  The source's control flow is:

* `if (!rmBeforeWrite && fileIsUpToDate) return` — pure no-op;
* `if (rmBeforeWrite) yield fs.rm(filePath, {force:true})`;
* `yield fs.writeFile(filePath, content)`;
* `if (documentHash) writtenFilesCache[filePath] = documentHash`.

Note that at every call site of the source the `rmBeforeWrite` parameter is
either left at its declared default `true` or passed explicitly as `true`. -/
def writeFileWithWrittenFilesCache (beh : FsBehavior) (fs0 : List (String × String))
    (cache : List (String × String)) (filePath content : String)
    (documentHash : Option String) (rmBeforeWrite : Bool) : WriteOutcome :=
  if ¬rmBeforeWrite = true ∧ fileIsUpToDate cache filePath documentHash then
    ⟨[], fs0, cache, none⟩
  else if rmBeforeWrite then
    if beh.rmFails filePath then
      ⟨[FsOp.rm filePath], fs0, cache, some (GenError.rmError filePath)⟩
    else if beh.writeFails filePath then
      ⟨[FsOp.rm filePath, FsOp.write filePath content], assocErase fs0 filePath, cache,
        some (GenError.writeFileError filePath)⟩
    else
      ⟨[FsOp.rm filePath, FsOp.write filePath content],
        assocSet (assocErase fs0 filePath) filePath content,
        storeHash cache filePath documentHash, none⟩
  else
    if beh.writeFails filePath then
      ⟨[FsOp.write filePath content], fs0, cache, some (GenError.writeFileError filePath)⟩
    else
      ⟨[FsOp.write filePath content], assocSet fs0 filePath content,
        storeHash cache filePath documentHash, none⟩

/-- Embedding of `leftPadWithUnderscoreIfStartsWithNumber` (lines 513-518). -/
def leftPadWithUnderscoreIfStartsWithNumber (str : String) : String :=
  match str.data with
  | c :: _ => if c.isDigit then "_" ++ str else str
  | [] => str

/-- Embedding of `idToFileName` (line 511): pad a leading digit with `_`,
then replace every `/` by `__`. -/
def idToFileName (id : String) : String :=
  ⟨(leftPadWithUnderscoreIfStartsWithNumber id).data.flatMap
    (fun c => if c = '/' then ['_', '_'] else [c])⟩

/-- C2: for every call of the cached write operation, if a fingerprint is
provided, `rmBeforeWrite` is false, and the `WrittenFilesCache` entry for
the file path equals that fingerprint, then no filesystem operation occurs
(pure no-op); in every other case the file is first removed exactly when
`rmBeforeWrite` is true and then the content is written to the file path,
fully replacing existing contents (stated here for runs in which the
filesystem primitives themselves succeed). -/
theorem writeFileWithWrittenFilesCache_spec (fs0 cache : List (String × String))
    (filePath content : String) (documentHash : Option String) (rmBeforeWrite : Bool) :
    writeFileWithWrittenFilesCache noFailFs fs0 cache filePath content documentHash rmBeforeWrite =
      (if documentHash.isSome = true ∧ rmBeforeWrite = false ∧
          assocFind cache filePath = documentHash then
        ⟨[], fs0, cache, none⟩
      else
        ⟨(if rmBeforeWrite then [FsOp.rm filePath] else []) ++ [FsOp.write filePath content],
          assocSet (if rmBeforeWrite then assocErase fs0 filePath else fs0) filePath content,
          storeHash cache filePath documentHash, none⟩) := by
  unfold writeFileWithWrittenFilesCache fileIsUpToDate noFailFs
  cases rmBeforeWrite <;> simp

/-- A behaviour in which every `fs.rm` fails (used to exercise the failure
path of the cached write). -/
def allRmFail : FsBehavior :=
  ⟨fun _ => true, fun _ => false, fun _ => false, false⟩

/-- After `assocSet m k v`, looking up `k` yields `v`. -/
theorem assocFind_assocSet_self (m : List (String × String)) (k v : String) :
    assocFind (assocSet m k v) k = some v := by
  induction m with
  | nil => simp [assocSet, assocFind]
  | cons kv rest ih =>
    obtain ⟨k', v'⟩ := kv
    by_cases h : k' = k <;> simp [assocSet, assocFind, h, ih]

/-- C3 counterexample: the aggregate JSON file of a document type with zero
documents is emitted with fingerprint `""` (the empty join of member
hashes).  On such a call the write succeeds and a fingerprint *was*
provided, yet the `WrittenFilesCache` afterwards does **not** map the file
path to that fingerprint, because the store step `if (documentHash) …` uses
JavaScript truthiness and skips the empty string. -/
theorem emptyFingerprint_not_stored :
    (writeFileWithWrittenFilesCache noFailFs [] [] "p" "c" (some "") true).err = none ∧
    (writeFileWithWrittenFilesCache noFailFs [] [] "p" "c" (some "") true).cache = [] ∧
    assocFind (writeFileWithWrittenFilesCache noFailFs [] [] "p" "c" (some "") true).cache "p"
      ≠ some "" := by
  decide

/-- C3 (amended): if the removal or the write fails, the
`WrittenFilesCache` is left unchanged (so a retry attempts the write
again); if the write succeeds and a *nonempty* fingerprint was provided,
the cache afterwards maps the file path to exactly that fingerprint.  An
empty-string fingerprint is treated as absent by the truthiness test of the
store step and is never stored. -/
theorem writeCache_update_on_success (beh : FsBehavior) (fs0 cache : List (String × String))
    (filePath content : String) (documentHash : Option String) (rmBeforeWrite : Bool) :
    ((writeFileWithWrittenFilesCache beh fs0 cache filePath content documentHash
        rmBeforeWrite).err.isSome = true →
      (writeFileWithWrittenFilesCache beh fs0 cache filePath content documentHash
        rmBeforeWrite).cache = cache) ∧
    (∀ h, documentHash = some h → h ≠ "" →
      (writeFileWithWrittenFilesCache beh fs0 cache filePath content documentHash
        rmBeforeWrite).err = none →
      assocFind (writeFileWithWrittenFilesCache beh fs0 cache filePath content documentHash
        rmBeforeWrite).cache filePath = some h) := by
  unfold writeFileWithWrittenFilesCache
  split_ifs with h1 h2 h3 h4 h5 <;>
    simp_all [storeHash, fileIsUpToDate, assocFind_assocSet_self]

/-- Concrete instances of `writeCache_update_on_success`: a failing removal
leaves the cache untouched, and a successful write with fingerprint `"h1"`
stores exactly `"h1"`. -/
theorem writeCache_update_on_success_witness :
    (writeFileWithWrittenFilesCache allRmFail [] [("q", "z")] "p" "c" (some "h1") true).cache
        = [("q", "z")] ∧
    assocFind (writeFileWithWrittenFilesCache noFailFs [] [] "p" "c" (some "h1") true).cache "p"
        = some "h1" := by
  refine ⟨(writeCache_update_on_success allRmFail [] [("q", "z")] "p" "c" (some "h1") true).1
      (by decide), ?_⟩
  exact (writeCache_update_on_success noFailFs [] [] "p" "c" (some "h1") true).2 "h1" rfl
    (by decide) (by decide)

/-! ### Data model (schema, cache, documents) -/

/-- One resolved content document, as the generator consumes it: the `_id`
field, the value of the configured type-discriminator field, the
document-level `documentHash` field, and `body`, which abstracts the
pretty-printed serialization `JSON.stringify(document, null, 2)`. -/
structure Document where
  docId : String
  typeName : String
  documentHash : String
  body : String
  deriving DecidableEq, Repr

/-- One entry of `cache.cacheItemsMap` (`{document, documentHash}`). -/
structure CacheItem where
  document : Document
  documentHash : String
  deriving DecidableEq, Repr

/-- The fetched-data cache: `Object.values(cache.cacheItemsMap)` in source
order (the keys play no role in the generator). -/
structure Cache where
  cacheItemsMap : List CacheItem
  deriving DecidableEq, Repr

/-- One document-type definition (`{name, isSingleton, …}`). -/
structure DocumentTypeDef where
  name : String
  isSingleton : Bool
  deriving DecidableEq, Repr

/-- The resolved schema: `Object.values(schemaDef.documentTypeDefMap)` in
source order, plus the overall schema hash. -/
structure SchemaDef where
  documentTypeDefMap : List DocumentTypeDef
  hash : String
  deriving DecidableEq, Repr

/-- POSIX path join for the nonempty, separator-free segments the generator
uses (`filePathJoin` from `@contentlayer/utils`). -/
def filePathJoin (parts : List String) : String :=
  String.intercalate "/" parts

/-- An in-memory artifact to materialize: path, content and optional
fingerprint.  `content = none` models a JavaScript `undefined` content
(`JSON.stringify` of `undefined` is `undefined`, not a string). -/
structure ArtifactFile where
  filePath : String
  content : Option String
  documentHash : Option String
  deriving DecidableEq, Repr

/-- Embedding of `individualDataJsonFiles` (lines 208-212): one
pretty-printed JSON file per document, fingerprinted by the cache item's
`documentHash`. -/
def individualDataJsonFiles (targetPath : String) (allCacheItems : List CacheItem) :
    List ArtifactFile :=
  allCacheItems.map (fun item =>
    ⟨filePathJoin [targetPath, "generated", item.document.typeName,
        idToFileName item.document.docId ++ ".json"],
      some item.document.body, some item.documentHash⟩)

/-- The two `Post` documents of the round-trip example: ids `"1-a"` and
`"2-b"`. -/
def postDoc1 : Document := ⟨"1-a", "Post", "h1", "bodyA"⟩

/-- Second `Post` document of the round-trip example. -/
def postDoc2 : Document := ⟨"2-b", "Post", "h2", "bodyB"⟩

/-- Cache holding the two `Post` documents. -/
def postCache : Cache := ⟨[⟨postDoc1, "h1"⟩, ⟨postDoc2, "h2"⟩]⟩

/-- C6 counterexample: for the two `Post` documents with ids `"1-a"` and
`"2-b"`, generation does **not** produce `generated/Post/_1_a.json` —
`idToFileName` only pads a leading digit with `_` and replaces `/` by
`__`; it does not touch `-`, so the artifact is `generated/Post/_1-a.json`. -/
theorem individual_json_claimed_paths_wrong :
    (individualDataJsonFiles "pkg" postCache.cacheItemsMap).map ArtifactFile.filePath =
      ["pkg/generated/Post/_1-a.json", "pkg/generated/Post/_2-b.json"] ∧
    ¬ "pkg/generated/Post/_1_a.json" ∈
        (individualDataJsonFiles "pkg" postCache.cacheItemsMap).map ArtifactFile.filePath ∧
    idToFileName "1-a" ≠ "_1_a" := by
  decide

/-- C6 (amended): for a collection type `Post` with documents `"1-a"` and
`"2-b"`, generation produces per-document JSON artifacts at
`generated/Post/_1-a.json` and `generated/Post/_2-b.json` (leading-digit
ids prefixed with `_`; other characters, including `-`, are kept). -/
theorem individual_json_paths :
    (individualDataJsonFiles "pkg" postCache.cacheItemsMap).map ArtifactFile.filePath =
      ["pkg/generated/Post/_1-a.json", "pkg/generated/Post/_2-b.json"] ∧
    idToFileName "1-a" = "_1-a" ∧ idToFileName "2-b" = "_2-b" := by
  decide

/-! ### The package manifest -/

/-- The manifest object literal of `makePackageJson` (lines 280-299). -/
structure PackageJsonShape where
  name : String
  description : String
  version : String
  exportsGeneratedImport : String
  typesVersionsGenerated : List String
  deriving DecidableEq, Repr

/-- The object constructed by `makePackageJson` before serialization. -/
def makePackageJsonObj (schemaHash : String) : PackageJsonShape :=
  ⟨"dot-contentlayer", "This package is auto-generated by Contentlayer",
    "0.0.0-" ++ schemaHash, "./generated/index.mjs", ["./generated"]⟩

/-- `JSON.stringify(packageJson, null, 2)` on the manifest shape, with the
source's insertion order of keys. -/
def jsonStringifyPackageJson (p : PackageJsonShape) : String :=
  "\x7b\n  \"name\": \"" ++ p.name ++ "\",\n  \"description\": \"" ++ p.description ++
    "\",\n  \"version\": \"" ++ p.version ++
    "\",\n  \"exports\": \x7b\n    \"./generated\": \x7b\n      \"import\": \"" ++
    p.exportsGeneratedImport ++
    "\"\n    \x7d\n  \x7d,\n  \"typesVersions\": \x7b\n    \"*\": \x7b\n      \"generated\": [\n" ++
    String.intercalate ",\n" (p.typesVersionsGenerated.map (fun s => "        \"" ++ s ++ "\"")) ++
    "\n      ]\n    \x7d\n  \x7d\n\x7d"

/-- Embedding of `makePackageJson` (lines 280-299). -/
def makePackageJson (schemaHash : String) : String :=
  jsonStringifyPackageJson (makePackageJsonObj schemaHash)

/-- `String.intercalate` on a one-element list is that element. -/
theorem intercalate_single (s a : String) : String.intercalate s [a] = a := rfl

/-- Everything of the serialized manifest before the version value. -/
def pkgManifestPre : String :=
  "\x7b\n  \"name\": \"" ++ "dot-contentlayer" ++ "\",\n  \"description\": \"" ++
    "This package is auto-generated by Contentlayer" ++ "\",\n  \"version\": \""

/-- Everything of the serialized manifest after the version value. -/
def pkgManifestPost : String :=
  "\",\n  \"exports\": \x7b\n    \"./generated\": \x7b\n      \"import\": \"" ++
    "./generated/index.mjs" ++
    "\"\n    \x7d\n  \x7d,\n  \"typesVersions\": \x7b\n    \"*\": \x7b\n      \"generated\": [\n" ++
    ("        \"" ++ "./generated" ++ "\"") ++ "\n      ]\n    \x7d\n  \x7d\n\x7d"

/-- C10: for every schema hash `h` the generated package manifest has
version string `"0.0.0-" ++ h` verbatim (the serialized manifest is the
fixed text around the version value); in particular schema hash `"abc123"`
yields version `"0.0.0-abc123"`. -/
theorem makePackageJson_version (h : String) :
    (makePackageJsonObj h).version = "0.0.0-" ++ h ∧
    makePackageJson h = pkgManifestPre ++ ("0.0.0-" ++ h) ++ pkgManifestPost ∧
    (makePackageJsonObj "abc123").version = "0.0.0-abc123" := by
  refine ⟨rfl, ?_, rfl⟩
  simp only [makePackageJson, jsonStringifyPackageJson, makePackageJsonObj, pkgManifestPre,
    pkgManifestPost, List.map, intercalate_single, String.append_assoc]

/-! ### Identifier synthesis for collection barrel files -/

/-- Characters kept by the strip regexp `/[^A-Z0-9_]/gi` that the source
passes to `camelCase`: ASCII letters, digits and underscore.  Every other
character acts as a word delimiter. -/
def isKeptChar (c : Char) : Bool := c.isAlphanum || c = '_'

/-- The camel boundaries of the `no-case` default `splitRegexp`: a split
between `[a-z0-9]` and `[A-Z]`, and between `[A-Z]` and `[A-Z][a-z]`. -/
def camelBoundary (c1 c2 : Char) (c3? : Option Char) : Bool :=
  ((c1.isLower || c1.isDigit) && c2.isUpper) ||
  (c1.isUpper && c2.isUpper && (match c3? with | some c3 => c3.isLower | none => false))

/-- Split one delimiter-free run at the camel boundaries. -/
def splitRunGo (acc : List Char) : List Char → List (List Char)
  | [] => [acc.reverse]
  | c1 :: rest =>
    match rest with
    | [] => [(c1 :: acc).reverse]
    | c2 :: rest2 =>
      if camelBoundary c1 c2 rest2.head? then
        (c1 :: acc).reverse :: splitRunGo [] rest
      else
        splitRunGo (c1 :: acc) rest

/-- Collect the maximal runs of kept characters (delimiters split, leading
and trailing delimiters drop, interior empty words contribute nothing to a
camel-case join). -/
def keptRunsGo (acc : List Char) : List Char → List (List Char)
  | [] => if acc.isEmpty then [] else [acc.reverse]
  | c :: rest =>
    if isKeptChar c then keptRunsGo (c :: acc) rest
    else if acc.isEmpty then keptRunsGo [] rest
    else acc.reverse :: keptRunsGo [] rest

/-- The word list of the no-case pipeline on `s`. -/
def camelWords (s : String) : List (List Char) :=
  (keptRunsGo [] s.data).flatMap (splitRunGo [])

/-- First character uppercased, rest lowercased (the `pascalCaseTransform`
of the camel-case package). -/
def capitalizeWord : List Char → List Char
  | [] => []
  | c :: cs => c.toUpper :: cs.map Char.toLower

/-- A fully lowercased word (the index-0 transform of `camelCase`). -/
def lowerWord (w : List Char) : List Char := w.map Char.toLower

/-- Modelled from the spec: `camelCase` comes from the external `camel-case`
npm package (not among the provided sources); §4.1 describes it as
"convert the file-name form to camel-case, stripping characters outside
`[A-Za-z0-9_]`".  The first word is lowercased, every later word is
capitalized, and the words are joined with no delimiter. -/
def camelCase (s : String) : String :=
  match camelWords s with
  | [] => ""
  | w :: ws => ⟨lowerWord w ++ ws.flatMap capitalizeWord⟩

/-- Embedding of `isValidJsVarName` (line 357):
`/^(?![0-9])([a-zA-Z0-9_$]+)$/.test(str)`. -/
def isValidJsVarName (str : String) : Bool :=
  match str.data with
  | [] => false
  | c :: _ => !c.isDigit && str.data.all (fun c => c.isAlphanum || c = '_' || c = '$')

/-- Embedding of `makeVariableName` (lines 359-367): camel-case the file
name of the id; keep the result when it is a valid bare identifier not yet
used in this file, otherwise fall back to `docDef.name + fileIndex`
(decimal). -/
def makeVariableName (docDefName : String) (usedVariableNames : List String)
    (id : String) (fileIndex : Nat) : String :=
  if isValidJsVarName (camelCase (idToFileName id)) = true ∧
      camelCase (idToFileName id) ∉ usedVariableNames then
    camelCase (idToFileName id)
  else docDefName ++ Nat.repr fileIndex

/-- The name-synthesis loop of `makeDataExportFile` (lines 369-375): each
chosen name is added to `usedVariableNames` before the next id is
processed. -/
def makeVariableNamesGo (docDefName : String) :
    List String → Nat → List String → List String
  | [], _, _ => []
  | id :: ids, fileIndex, used =>
    let v := makeVariableName docDefName used id fileIndex
    v :: makeVariableNamesGo docDefName ids (fileIndex + 1) (v :: used)

/-- The synthesized import variable names of one collection barrel file, in
document order. -/
def makeVariableNames (docDefName : String) (documentIds : List String) : List String :=
  makeVariableNamesGo docDefName documentIds 0 []

/-! #### Decimal representations are injective -/

/-- `Nat.toDigitsCore` pushes onto its accumulator. -/
theorem toDigitsCore_acc : ∀ (fuel n : Nat) (ds : List Char),
    Nat.toDigitsCore 10 fuel n ds = Nat.toDigitsCore 10 fuel n [] ++ ds
  | 0, _, ds => by simp [Nat.toDigitsCore]
  | fuel + 1, n, ds => by
    simp only [Nat.toDigitsCore]
    by_cases h : n / 10 = 0
    · simp [h]
    · simp only [h, if_false]
      rw [toDigitsCore_acc fuel (n / 10) (Nat.digitChar (n % 10) :: ds),
        toDigitsCore_acc fuel (n / 10) [Nat.digitChar (n % 10)]]
      simp

/-- Any sufficient fuel computes the same digit list. -/
theorem toDigitsCore_fuel (n : Nat) : ∀ fuel₁ fuel₂ : Nat, n < fuel₁ → n < fuel₂ →
    Nat.toDigitsCore 10 fuel₁ n [] = Nat.toDigitsCore 10 fuel₂ n [] := by
  induction n using Nat.strongRecOn with
  | _ n ih =>
    intro fuel₁ fuel₂ h₁ h₂
    match fuel₁, fuel₂ with
    | f₁ + 1, f₂ + 1 =>
      simp only [Nat.toDigitsCore]
      by_cases h : n / 10 = 0
      · simp [h]
      · simp only [h, if_false]
        rw [toDigitsCore_acc f₁ (n / 10) [Nat.digitChar (n % 10)],
          toDigitsCore_acc f₂ (n / 10) [Nat.digitChar (n % 10)],
          ih (n / 10) (by omega) f₁ f₂ (by omega) (by omega)]

/-- Reading a digit character back as a value. -/
theorem digitChar_toNat_sub (n : Nat) (h : n < 10) : (Nat.digitChar n).toNat - 48 = n := by
  interval_cases n <;> decide

/-- Fold a decimal digit list back into the number it denotes. -/
def decReadBack (cs : List Char) : Nat :=
  cs.foldl (fun a c => a * 10 + (c.toNat - 48)) 0

/-- The digits of `n` read back as `n`. -/
theorem decReadBack_toDigits (n : Nat) :
    decReadBack (Nat.toDigitsCore 10 (n + 1) n []) = n := by
  induction n using Nat.strongRecOn with
  | _ n ih =>
    simp only [Nat.toDigitsCore]
    by_cases h : n / 10 = 0
    · simp only [h, if_true]
      have hn : n < 10 := by omega
      simp only [decReadBack, List.foldl_cons, List.foldl_nil, Nat.zero_mul, Nat.zero_add]
      rw [Nat.mod_eq_of_lt hn]
      exact digitChar_toNat_sub n hn
    · simp only [h, if_false]
      rw [toDigitsCore_acc n (n / 10) [Nat.digitChar (n % 10)]]
      rw [toDigitsCore_fuel (n / 10) n (n / 10 + 1) (by omega) (by omega)]
      have hmod : (Nat.digitChar (n % 10)).toNat - 48 = n % 10 :=
        digitChar_toNat_sub (n % 10) (by omega)
      simp only [decReadBack, List.foldl_append, List.foldl_cons, List.foldl_nil]
      have hdiv := ih (n / 10) (by omega)
      simp only [decReadBack] at hdiv
      rw [hdiv, hmod]
      omega

/-- Decimal `Nat.repr` (what `${fileIndex}` produces) is injective. -/
theorem natRepr_injective {m n : Nat} (h : Nat.repr m = Nat.repr n) : m = n := by
  have hm := decReadBack_toDigits m
  have hn := decReadBack_toDigits n
  have hd : Nat.toDigitsCore 10 (m + 1) m [] = Nat.toDigitsCore 10 (n + 1) n [] := by
    have := congrArg String.data h
    simpa [Nat.repr, Nat.toDigits, List.asString] using this
  rw [hd] at hm
  omega

/-- Appending to the same string on the left is injective. -/
theorem string_append_left_cancel {a b c : String} (h : a ++ b = a ++ c) : b = c := by
  apply String.ext
  have := congrArg String.data h
  simp only [String.data_append] at this
  exact List.append_cancel_left this

/-! #### Uniqueness of the synthesized names -/

/-- Every name the loop produces is either a fresh camel-cased candidate of
one of the remaining ids, or a fallback `docDefName ++ <decimal index>` for
an index not below the current one. -/
theorem makeVariableNamesGo_mem (docDefName : String) :
    ∀ (ids : List String) (fileIndex : Nat) (used : List String),
    ∀ v ∈ makeVariableNamesGo docDefName ids fileIndex used,
      (v ∉ used ∧ ∃ id ∈ ids, v = camelCase (idToFileName id)) ∨
      (∃ m, fileIndex ≤ m ∧ v = docDefName ++ Nat.repr m) := by
  intro ids
  induction ids with
  | nil => intro _ _ v hv; simp [makeVariableNamesGo] at hv
  | cons id ids ih =>
    intro fileIndex used v hv
    simp only [makeVariableNamesGo, List.mem_cons] at hv
    rcases hv with rfl | hv
    · unfold makeVariableName
      split_ifs with hc
      · exact Or.inl ⟨hc.2, id, by simp, rfl⟩
      · exact Or.inr ⟨fileIndex, le_refl _, rfl⟩
    · rcases ih (fileIndex + 1) (makeVariableName docDefName used id fileIndex :: used) v hv with
        ⟨hnu, id', hid', hval⟩ | ⟨m, hm, hval⟩
      · exact Or.inl ⟨fun hu => hnu (List.mem_cons_of_mem _ hu), id',
          List.mem_cons_of_mem _ hid', hval⟩
      · exact Or.inr ⟨m, by omega, hval⟩

/-- C7 counterexample: for the collection type named `post` with document
ids `["post-1", "-"]`, the first id keeps its camel-cased name `post1`,
and the second id (whose camel-cased form `""` is not a valid identifier)
falls back to `post` + index `1` = `post1`: the synthesized names are NOT
pairwise distinct. -/
theorem variableNames_duplicate :
    makeVariableNames "post" ["post-1", "-"] = ["post1", "post1"] ∧
    ¬ (makeVariableNames "post" ["post-1", "-"]).Nodup := by
  constructor
  · rfl
  · decide

/-- C7 (amended): the camel-cased candidate is kept exactly when it is a
valid bare identifier not already used in the file, otherwise the fallback
`{typeName}{positionalIndex}` is used; the resulting names are pairwise
distinct **provided** no id's camel-cased candidate coincides with the type
name followed by a decimal index (a kept candidate at an earlier position
can otherwise collide with a later fallback, as in the counterexample). -/
theorem makeVariableNames_nodup (docDefName : String) (ids : List String)
    (hyp : ∀ id ∈ ids, ∀ n : Nat, camelCase (idToFileName id) ≠ docDefName ++ Nat.repr n) :
    (makeVariableNames docDefName ids).Nodup := by
  suffices h : ∀ (l : List String) (fileIndex : Nat) (used : List String),
      (∀ id ∈ l, ∀ n : Nat, camelCase (idToFileName id) ≠ docDefName ++ Nat.repr n) →
      (makeVariableNamesGo docDefName l fileIndex used).Nodup by
    exact h ids 0 [] hyp
  intro l
  induction l with
  | nil => intro _ _ _; simp [makeVariableNamesGo]
  | cons id ids ih =>
    intro fileIndex used hl
    simp only [makeVariableNamesGo, List.nodup_cons]
    set v := makeVariableName docDefName used id fileIndex with hv
    refine ⟨?_, ih (fileIndex + 1) (v :: used) (fun i hi => hl i (List.mem_cons_of_mem _ hi))⟩
    intro hmem
    rcases makeVariableNamesGo_mem docDefName ids (fileIndex + 1) (v :: used) v hmem with
      ⟨hnu, _, _, _⟩ | ⟨m, hm, hval⟩
    · exact hnu (List.mem_cons_self _ _)
    · rw [hv] at hval
      unfold makeVariableName at hval
      split_ifs at hval with hc
      · exact hl id (List.mem_cons_self _ _) m hval
      · have := string_append_left_cancel hval
        have := natRepr_injective this
        omega

/-- Concrete instance of `makeVariableNames_nodup`: type name `Post`
(uppercase initial, so no camel-cased candidate can equal
`Post<decimal>`), ids `["hello", "-"]`. -/
theorem makeVariableNames_nodup_witness :
    (makeVariableNames "Post" ["hello", "-"]).Nodup := by
  apply makeVariableNames_nodup "Post" ["hello", "-"]
  intro id hid n h
  have hdata := congrArg String.data h
  have hp : ("Post" ++ Nat.repr n).data = 'P' :: ("ost" ++ Nat.repr n).data := rfl
  rw [hp] at hdata
  simp only [List.mem_cons, List.not_mem_nil, or_false] at hid
  rcases hid with rfl | rfl
  · have hh : (camelCase (idToFileName "hello")).data = ['h', 'e', 'l', 'l', 'o'] := rfl
    rw [hh] at hdata
    simp at hdata
  · have hh : (camelCase (idToFileName "-")).data = [] := rfl
    rw [hh] at hdata
    simp at hdata

/-! ### Artifact synthesis -/

/-- Environment of one generation run: the values the generator reads from
its external collaborators.  `autogeneratedNote` and `getDataVariableName`
come from `./common.js`, `assertStatement` from the Node version probe,
`renderTypesContent` is the output of `renderTypes` from
`./generate-types.js`, `relativeBundleFilePath` is `relative(cwd,
bundleFilePath)`; none of these modules is among the provided sources and
none of their outputs influences any claim beyond being some string. -/
structure GenEnv where
  autogeneratedNote : String
  getDataVariableName : DocumentTypeDef → String
  assertStatement : String
  renderTypesContent : String
  relativeBundleFilePath : String
  isDev : Bool
  enableDynamicBuild : Bool
  clDebug : Bool
  schemaJsonContent : String
  cacheJsonContent : String

/-- Abstraction of `JSON.stringify(documents, null, 2)` on an array of
documents: the empty array serializes to `"[]"`; a nonempty array is a
composite of the members' serializations (its exact pretty-printed shape is
irrelevant to every claim). -/
def jsonStringifyDocArray (documents : List Document) : String :=
  "[" ++ String.intercalate "," (documents.map Document.body) ++ "]"

/-- Embedding of `makeDataExportFile` (lines 337-388).  The result is
`none` when the JavaScript original throws: for a singleton type with zero
matching documents, `documentIds[0]!` is `undefined` and
`idToFileName(undefined)` raises a `TypeError` (`.replace` on
`undefined`). -/
def makeDataExportFile (autogeneratedNote dataVariableName : String)
    (docDef : DocumentTypeDef) (documentIds : List String) (assertStatement : String) :
    Option String :=
  if docDef.isSingleton then
    match documentIds.head? with
    | none => none
    | some documentId =>
      some ("// " ++ autogeneratedNote ++ "\nexport \x7b default as " ++ dataVariableName ++
        " \x7d from \x27./" ++ idToFileName documentId ++ ".json\x27" ++ assertStatement ++ "\n")
  else
    some ("// " ++ autogeneratedNote ++ "\n\n" ++
      String.intercalate "\n"
        (((documentIds.zip (makeVariableNames docDef.name documentIds)).map (fun p =>
          "import " ++ p.2 ++ " from \x27./" ++ idToFileName p.1 ++ ".json\x27" ++
            assertStatement))) ++
      "\n\nexport const " ++ dataVariableName ++ " = [" ++
      String.intercalate ", " (makeVariableNames docDef.name documentIds) ++ "]\n")

/-- Embedding of the `dataBarrelFiles` synthesis (lines 199-206): one
barrel module per document type, fed the ids of the documents whose
type-discriminator field names that type. -/
def dataBarrelFiles (env : GenEnv) (targetPath : String) (documentDefs : List DocumentTypeDef)
    (allDocuments : List Document) : List ArtifactFile :=
  documentDefs.map (fun docDef =>
    ⟨filePathJoin [targetPath, "generated", docDef.name, "_index.mjs"],
      makeDataExportFile env.autogeneratedNote (env.getDataVariableName docDef) docDef
        ((allDocuments.filter (fun d => d.typeName == docDef.name)).map Document.docId)
        env.assertStatement,
      none⟩)

/-- Embedding of `collectionDataJsonFiles` (lines 214-226): one aggregate
JSON file per document type, fingerprinted by the concatenation of the
member documents' hashes; for a singleton type the content is
`JSON.stringify(documents[0]!)`, which is a JavaScript `undefined`
(modelled `none`) when no document matches. -/
def collectionDataJsonFiles (targetPath : String) (documentDefs : List DocumentTypeDef)
    (allDocuments : List Document) : List ArtifactFile :=
  documentDefs.map (fun documentDef =>
    ⟨filePathJoin [targetPath, "generated", documentDef.name, "_index.json"],
      (if documentDef.isSingleton then
        ((allDocuments.filter (fun d => d.typeName == documentDef.name)).head?).map Document.body
      else
        some (jsonStringifyDocArray
          (allDocuments.filter (fun d => d.typeName == documentDef.name)))),
      some (String.join
        ((allDocuments.filter (fun d => d.typeName == documentDef.name)).map
          Document.documentHash))⟩)

/-- A singleton document type with no matching document, for the zero-
document edge case. -/
def pageSingletonDef : DocumentTypeDef := ⟨"Page", true⟩

/-- C9 counterexample: for a singleton type with zero matching documents,
artifact synthesis is **not** total: the barrel-file synthesis throws
(modelled `none` — `idToFileName(undefined)` raises a `TypeError`), and the
aggregate JSON content is `JSON.stringify(undefined)`, i.e. `undefined`
rather than a defined string. -/
theorem singleton_zero_docs_crashes :
    makeDataExportFile "note" "page" pageSingletonDef [] "" = none ∧
    (collectionDataJsonFiles "pkg" [pageSingletonDef] []).map ArtifactFile.content = [none] := by
  constructor <;> rfl

/-- C9 (amended): a *collection* type with zero matching documents is
handled totally — its barrel file is a defined string (empty export array)
and its aggregate JSON content is `"[]"` with fingerprint `""`; a
*singleton* type with zero matching documents makes barrel synthesis throw
(`none`) and gives the aggregate an undefined (`none`) content. -/
theorem zero_docs_artifacts (noteStr dvn name asrt targetPath : String) :
    makeDataExportFile noteStr dvn ⟨name, false⟩ [] asrt =
      some ("// " ++ noteStr ++ "\n\n" ++ "" ++ "\n\nexport const " ++ dvn ++ " = [" ++ "" ++ "]\n") ∧
    (collectionDataJsonFiles targetPath [⟨name, false⟩] []).map ArtifactFile.content =
      [some "[]"] ∧
    (collectionDataJsonFiles targetPath [⟨name, false⟩] []).map ArtifactFile.documentHash =
      [some ""] ∧
    makeDataExportFile noteStr dvn ⟨name, true⟩ [] asrt = none ∧
    (collectionDataJsonFiles targetPath [⟨name, true⟩] []).map ArtifactFile.content = [none] := by
  refine ⟨rfl, rfl, rfl, rfl, rfl⟩

/-- The `fetchContent` export text of `makeIndexMjs` (lines 423-449), with
the relative bundle path spliced in. -/
def fetchContentExport (bundleFilePath : String) : String :=
  "export const fetchContent = async (sourceKey) => \x7b\n" ++
  "  const \x7b Worker \x7d = await import(\x27node:worker_threads\x27)\n" ++
  "  const path = await import(\x27node:path\x27)\n\n" ++
  "  // This is a worker-around (pun intended) for Next.js\x27 limitation of still running via CJS.\n" ++
  "  const workerFilePath = path.join(process.cwd(), \x27" ++ bundleFilePath ++ "\x27)\n" ++
  "  const worker = new Worker(workerFilePath, \x7b workerData: \x7b sourceKey \x7d \x7d)\n\n" ++
  "  return new Promise((resolve, reject) => \x7b\n" ++
  "    worker.on(\x27message\x27, (data) => \x7b \n" ++
  "      if (data.result) \x7b\n        resolve(data.result)\n      \x7d else if (data.fatalError) \x7b\n        reject(data.fatalError)\n      \x7d else \x7b\n        reject(new Error(\x27This should not happen\x27))\n      \x7d\n" ++
  "    \x7d)\n    worker.on(\x27error\x27, reject)\n  \x7d).finally(() => worker.terminate())\n\x7d\n    "

/-- Embedding of `makeIndexMjs` (lines 390-466). -/
def makeIndexMjs (env : GenEnv) (schemaDef : SchemaDef) : String :=
  "// " ++ env.autogeneratedNote ++ "\n\n" ++
  "export \x7b isType \x7d from \x27contentlayer/client\x27\n\n" ++
  "// NOTE During development Contentlayer imports from \x60.mjs\x60 files to improve HMR speeds.\n" ++
  "// During (production) builds Contentlayer it imports from \x60.json\x60 files to improve build performance.\n" ++
  String.intercalate "\n" (schemaDef.documentTypeDefMap.map (fun docDef =>
    if env.isDev then
      "import \x7b " ++ env.getDataVariableName docDef ++ " \x7d from \x27./" ++ docDef.name ++
        "/_index.mjs\x27"
    else
      "import " ++ env.getDataVariableName docDef ++ " from \x27./" ++ docDef.name ++
        "/_index.json\x27" ++ env.assertStatement)) ++
  "\n\n" ++
  ("export \x7b " ++ String.intercalate ", "
      (schemaDef.documentTypeDefMap.map (fun docDef => env.getDataVariableName docDef)) ++
    " \x7d") ++
  "\n\nexport const allDocuments = [" ++
  String.intercalate ", " (schemaDef.documentTypeDefMap.map (fun docDef =>
    if docDef.isSingleton then env.getDataVariableName docDef
    else "..." ++ env.getDataVariableName docDef)) ++
  "]\n\n" ++
  (if env.enableDynamicBuild = false then "" else fetchContentExport env.relativeBundleFilePath) ++
  "\n"

/-- The `fetchContent` declaration text of `makeDataTypes` (lines 486-493). -/
def fetchContentTypeDecl : String :=
  "export type FetchContentResult = \n" ++
  "  | \x7b _tag: \x27Error\x27, error: SourceProvideSchemaErrorJSON | SourceFetchDataErrorJSON \x7d\n" ++
  "  | \x7b _tag: \x27Data\x27, data: DataExports \x7d\n\n" ++
  "export declare const fetchContent: (sourceKey?: string) => Promise<FetchContentResult>\n    "

/-- Embedding of `makeDataTypes` (lines 470-509). -/
def makeDataTypes (env : GenEnv) (schemaDef : SchemaDef) : String :=
  "// " ++ env.autogeneratedNote ++ "\n\n" ++
  "import \x7b " ++
  String.intercalate ", " (schemaDef.documentTypeDefMap.map DocumentTypeDef.name) ++
  ", DocumentTypes, DataExports \x7d from \x27./types\x27\n" ++
  "import \x7b SourceProvideSchemaErrorJSON, SourceFetchDataErrorJSON \x7d from \x27contentlayer/core\x27\n\n" ++
  "export * from \x27./types\x27\n\n" ++
  String.intercalate "\n" (schemaDef.documentTypeDefMap.map (fun docDef =>
    "export declare const " ++ env.getDataVariableName docDef ++ ": " ++ docDef.name ++
      (if docDef.isSingleton then "" else "[]"))) ++
  "\n\nexport declare const allDocuments: DocumentTypes[]\n\n" ++
  (if env.enableDynamicBuild = false then "" else fetchContentTypeDecl) ++
  "\n"

/-! ### The write batch of `writeFilesForCache` -/

/-- One entry of the parallel batch passed to `T.tuplePar`
(lines 240-268). -/
inductive BatchTask where
  | writeTask (filePath : String) (content : Option String) (documentHash : Option String)
      (rmBeforeWrite : Bool)
  | bundleTask (outfile : String)
  | unitTask
  deriving DecidableEq, Repr

/-- The parallel batch of `writeFilesForCache`, in the source's tuple
order: manifest, `types.d.ts`, `index.d.ts`, `index.mjs`, the barrel
files, the individual JSON files, the aggregate JSON files, and — inside
the same `T.tuplePar` — the conditional dynamic-worker bundling.  Every
cached write leaves `rmBeforeWrite` at its declared default `true`; the two
`.d.ts` writes pass `true` explicitly. -/
def writeBatchTasks (env : GenEnv) (schemaDef : SchemaDef) (cache : Cache)
    (targetPath : String) : List BatchTask :=
  [BatchTask.writeTask (filePathJoin [targetPath, "package.json"])
      (some (makePackageJson schemaDef.hash)) none true,
    BatchTask.writeTask (filePathJoin [targetPath, "generated", "types.d.ts"])
      (some env.renderTypesContent) none true,
    BatchTask.writeTask (filePathJoin [targetPath, "generated", "index.d.ts"])
      (some (makeDataTypes env schemaDef)) none true,
    BatchTask.writeTask (filePathJoin [targetPath, "generated", "index.mjs"])
      (some (makeIndexMjs env schemaDef)) none true] ++
  (dataBarrelFiles env targetPath schemaDef.documentTypeDefMap
      (cache.cacheItemsMap.map CacheItem.document)).map
    (fun a => BatchTask.writeTask a.filePath a.content a.documentHash true) ++
  (individualDataJsonFiles targetPath cache.cacheItemsMap).map
    (fun a => BatchTask.writeTask a.filePath a.content a.documentHash true) ++
  (collectionDataJsonFiles targetPath schemaDef.documentTypeDefMap
      (cache.cacheItemsMap.map CacheItem.document)).map
    (fun a => BatchTask.writeTask a.filePath a.content a.documentHash true) ++
  [if env.enableDynamicBuild then
    BatchTask.bundleTask (filePathJoin [targetPath, "generated", "dynamic-build-worker.mjs"])
  else BatchTask.unitTask]

/-- Run one cached write and append its attempted operations. -/
def runWriteTask (beh : FsBehavior) (st : WriteOutcome) (filePath content : String)
    (documentHash : Option String) (rmBeforeWrite : Bool) : WriteOutcome :=
  ⟨st.ops ++ (writeFileWithWrittenFilesCache beh st.files st.cache filePath content
      documentHash rmBeforeWrite).ops,
    (writeFileWithWrittenFilesCache beh st.files st.cache filePath content
      documentHash rmBeforeWrite).files,
    (writeFileWithWrittenFilesCache beh st.files st.cache filePath content
      documentHash rmBeforeWrite).cache,
    (writeFileWithWrittenFilesCache beh st.files st.cache filePath content
      documentHash rmBeforeWrite).err⟩

/-- `fs.mkdirp` step (directories are not tracked in the file map). -/
def runMkdir (beh : FsBehavior) (st : WriteOutcome) (path : String) : WriteOutcome :=
  if st.err.isSome then st
  else if beh.mkdirFails path then
    ⟨st.ops ++ [FsOp.mkdir path], st.files, st.cache, some (GenError.mkdirError path)⟩
  else ⟨st.ops ++ [FsOp.mkdir path], st.files, st.cache, none⟩

/-- Uncached `fs.writeFileJson` step (the `CL_DEBUG` snapshots). -/
def runPlainWrite (beh : FsBehavior) (st : WriteOutcome) (path content : String) : WriteOutcome :=
  if st.err.isSome then st
  else if beh.writeFails path then
    ⟨st.ops ++ [FsOp.write path content], st.files, st.cache,
      some (GenError.writeFileError path)⟩
  else ⟨st.ops ++ [FsOp.write path content], assocSet st.files path content, st.cache, none⟩

/-- Execute the batch.  The source runs the batch with `T.tuplePar`; the
tasks touch pairwise distinct paths, so sequential execution in tuple order
models the parallel join; a failed task fails the batch (remaining tasks
are skipped).  The result is `none` when a task would call
`fs.writeFile(path, undefined)`, which throws a `TypeError` (an untyped
defect). -/
def runBatch (beh : FsBehavior) : List BatchTask → WriteOutcome → Option WriteOutcome
  | [], st => some st
  | t :: ts, st =>
    if st.err.isSome then some st
    else
      match t with
      | BatchTask.unitTask => runBatch beh ts st
      | BatchTask.bundleTask outfile =>
        if beh.esbuildFails then
          runBatch beh ts
            ⟨st.ops ++ [FsOp.bundle outfile], st.files, st.cache, some GenError.esbuildError⟩
        else
          runBatch beh ts
            ⟨st.ops ++ [FsOp.bundle outfile], assocSet st.files outfile "<bundle>",
              st.cache, none⟩
      | BatchTask.writeTask p c dh rmB =>
        match c with
        | none => none
        | some content => runBatch beh ts (runWriteTask beh st p content dh rmB)

/-- Whether artifact synthesis for this schema and cache is total (no
barrel file throws, no `undefined` content): exactly when no singleton type
has zero matching documents. -/
def synthesisTotal (env : GenEnv) (schemaDef : SchemaDef) (cache : Cache)
    (targetPath : String) : Bool :=
  (dataBarrelFiles env targetPath schemaDef.documentTypeDefMap
    (cache.cacheItemsMap.map CacheItem.document)).all (fun a => a.content.isSome)

/-- Embedding of `writeFilesForCache` (lines 142-278): the optional
`CL_DEBUG` snapshots, the directory creation for `generated` and every
per-type directory, then the parallel batch.  The result is `none` when
the generator throws: `dataBarrelFiles` is synthesized eagerly before any
filesystem step, and `makeDataExportFile` throws for a singleton type with
zero documents. -/
def writeFilesForCache (env : GenEnv) (beh : FsBehavior) (schemaDef : SchemaDef)
    (cache : Cache) (targetPath : String) (files0 wcache0 : List (String × String)) :
    Option WriteOutcome :=
  if synthesisTotal env schemaDef cache targetPath then
    runBatch beh (writeBatchTasks env schemaDef cache targetPath)
      (List.foldl (runMkdir beh)
        (if env.clDebug then
          runPlainWrite beh
            (runPlainWrite beh (runMkdir beh ⟨[], files0, wcache0, none⟩
                (filePathJoin [targetPath, ".cache"]))
              (filePathJoin [targetPath, ".cache", "schema.json"]) env.schemaJsonContent)
            (filePathJoin [targetPath, ".cache", "data-cache.json"]) env.cacheJsonContent
        else ⟨[], files0, wcache0, none⟩)
        (filePathJoin [targetPath, "generated"] ::
          schemaDef.documentTypeDefMap.map
            (fun d => filePathJoin [targetPath, "generated", d.name])))
  else none

/-! ### C5: where the bundling step runs -/

/-- A production-mode environment with dynamic build enabled. -/
def envDyn : GenEnv :=
  ⟨"note", fun d => "all" ++ d.name, "", "typesDts", "relbundle", false, true, false, "sj", "cj"⟩

/-- A production-mode environment with dynamic build disabled. -/
def envProd : GenEnv :=
  ⟨"note", fun d => "all" ++ d.name, "", "typesDts", "relbundle", false, false, false, "sj", "cj"⟩

/-- The collection type `Post`. -/
def postCollectionDef : DocumentTypeDef := ⟨"Post", false⟩

/-- A schema holding only the collection type `Post`. -/
def schemaPost : SchemaDef := ⟨[postCollectionDef], "sh"⟩

/-- A cache with one `Post` document (id `"a"`, hash `"h1"`). -/
def cacheA : Cache := ⟨[⟨⟨"a", "Post", "h1", "bodyA"⟩, "h1"⟩]⟩

/-- C5 counterexample: with `enableDynamicBuild` set, the dynamic-worker
bundling is an element of the **same** parallel batch (`T.tuplePar`,
lines 240-268) as the artifact writes — it starts concurrently with them,
not after the write batch has settled. -/
theorem bundling_inside_write_batch :
    BatchTask.bundleTask "pkg/generated/dynamic-build-worker.mjs" ∈
      writeBatchTasks envDyn schemaPost cacheA "pkg" ∧
    BatchTask.writeTask "pkg/package.json" (some (makePackageJson "sh")) none true ∈
      writeBatchTasks envDyn schemaPost cacheA "pkg" := by
  constructor
  · refine List.mem_append_right _ ?_
    show BatchTask.bundleTask "pkg/generated/dynamic-build-worker.mjs" ∈
      [if envDyn.enableDynamicBuild then
        BatchTask.bundleTask (filePathJoin ["pkg", "generated", "dynamic-build-worker.mjs"])
      else BatchTask.unitTask]
    exact List.mem_cons_self _ _
  · exact List.mem_append_left _ (List.mem_append_left _ (List.mem_append_left _
      (List.mem_append_left _ (List.mem_cons_self _ _))))

/-- C5 (amended): within one cycle the artifact writes and the conditional
dynamic-worker bundling are launched together as components of one parallel
batch — the bundling step is the batch's final component (or a no-op task
when the feature flag is off); it is scheduled after data fetch and
directory creation, but not after the write batch settles. -/
theorem bundle_task_in_parallel_batch (env : GenEnv) (schemaDef : SchemaDef) (cache : Cache)
    (targetPath : String) :
    (writeBatchTasks env schemaDef cache targetPath).getLast? =
      some (if env.enableDynamicBuild then
        BatchTask.bundleTask (filePathJoin [targetPath, "generated", "dynamic-build-worker.mjs"])
      else BatchTask.unitTask) ∧
    BatchTask.writeTask (filePathJoin [targetPath, "package.json"])
        (some (makePackageJson schemaDef.hash)) none true ∈
      writeBatchTasks env schemaDef cache targetPath := by
  constructor
  · unfold writeBatchTasks
    exact List.getLast?_concat _
  · unfold writeBatchTasks
    exact List.mem_append_left _ (List.mem_append_left _ (List.mem_append_left _
      (List.mem_append_left _ (List.mem_cons_self _ _))))

/-! ### C1: the second run over an unchanged cache -/

/-- The outcome of the first generation run over `cacheA` (fresh
`WrittenFilesCache`, empty disk). -/
def firstRunOutcome : WriteOutcome :=
  (writeFilesForCache envProd noFailFs schemaPost cacheA "pkg" [] []).getD ⟨[], [], [], none⟩

/-- The outcome of the second generation run: same schema, same cache, and
the `WrittenFilesCache` and disk state produced by the first run. -/
def secondRunOutcome : WriteOutcome :=
  (writeFilesForCache envProd noFailFs schemaPost cacheA "pkg" firstRunOutcome.files
      firstRunOutcome.cache).getD ⟨[], [], [], none⟩

/-- C1 evaluated at the failing input: the first run stores the
fingerprints (`WrittenFilesCache` maps both fingerprinted paths to
`"h1"`), yet the second run with the same `SchemaDef`, the same `Cache`
and that populated cache still removes and rewrites both fingerprinted
artifacts — the skip branch requires `rmBeforeWrite` to be false, while
every call site leaves it at its default `true`. -/
theorem second_run_still_writes_fingerprinted :
    writeFilesForCache envProd noFailFs schemaPost cacheA "pkg" [] [] = some firstRunOutcome ∧
    firstRunOutcome.err = none ∧
    assocFind firstRunOutcome.cache "pkg/generated/Post/a.json" = some "h1" ∧
    assocFind firstRunOutcome.cache "pkg/generated/Post/_index.json" = some "h1" ∧
    secondRunOutcome.err = none ∧
    secondRunOutcome.ops.count (FsOp.rm "pkg/generated/Post/a.json") = 1 ∧
    secondRunOutcome.ops.count (FsOp.write "pkg/generated/Post/a.json" "bodyA") = 1 ∧
    secondRunOutcome.ops.count (FsOp.rm "pkg/generated/Post/_index.json") = 1 := by
  refine ⟨rfl, rfl, rfl, rfl, rfl, rfl, rfl, rfl⟩

/-! ### The streaming pipeline (`generateDotpkgStream`) -/

/-- The per-cycle success value (`GenerateInfo`): the number of entries of
`cache.cacheItemsMap`. -/
structure GenerateInfo where
  documentCount : Nat
  deriving DecidableEq, Repr

/-- Result of the stream: the emitted elements in order, the number of
success-callback invocations, and whether the stream died of an untyped
defect (a thrown `TypeError`) before consuming all emissions. -/
structure StreamResult where
  outputs : List (Except GenError GenerateInfo)
  callbackCount : Nat
  died : Bool
  deriving Repr

/-- Process the data-fetch emissions (lines 103-119): per emission, the
write step applies only to `Right` caches (`S.mapEffectEitherRight`),
whereas the success-callback stage (`S.mapEffect`, lines 110-119) applies
to **every** element, `Left` or `Right`; a callback failure replaces the
element by the wrapped callback error (`T.fold`, lines 114-117).  The
stream-lifetime `writtenFilesCache` and the disk state thread through the
cycles. -/
def processEmissions (env : GenEnv) (beh : FsBehavior) (schemaDef : SchemaDef)
    (targetPath : String) (hasCallback callbackFails : Bool) :
    List (Except GenError Cache) → List (String × String) → List (String × String) →
    StreamResult
  | [], _, _ => ⟨[], 0, false⟩
  | e :: es, files, wcache =>
    match e with
    | Except.error err =>
      let elem : Except GenError GenerateInfo :=
        if hasCallback && callbackFails then Except.error GenError.successCallbackError
        else Except.error err
      let rest := processEmissions env beh schemaDef targetPath hasCallback callbackFails es
        files wcache
      ⟨elem :: rest.outputs, (if hasCallback then 1 else 0) + rest.callbackCount, rest.died⟩
    | Except.ok cache =>
      match writeFilesForCache env beh schemaDef cache targetPath files wcache with
      | none => ⟨[], 0, true⟩
      | some st =>
        let elem : Except GenError GenerateInfo :=
          if hasCallback && callbackFails then Except.error GenError.successCallbackError
          else
            match st.err with
            | some err => Except.error err
            | none => Except.ok ⟨cache.cacheItemsMap.length⟩
        let rest := processEmissions env beh schemaDef targetPath hasCallback callbackFails es
          st.files st.cache
        ⟨elem :: rest.outputs, (if hasCallback then 1 else 0) + rest.callbackCount, rest.died⟩

/-- Embedding of `generateDotpkgStream` (lines 72-123): resolve the schema
and the target directory; a resolution failure yields a single `Left`
element (the per-emission stages live inside `chainMapEitherRight` and
never run); otherwise every data-fetch emission is processed in order
against the stream-lifetime `writtenFilesCache` (created empty at line
85). -/
def generateDotpkgStream (env : GenEnv) (beh : FsBehavior)
    (resolveResult : Except GenError (SchemaDef × String))
    (emissions : List (Except GenError Cache)) (hasCallback callbackFails : Bool)
    (files0 : List (String × String)) : StreamResult :=
  match resolveResult with
  | Except.error err => ⟨[Except.error err], 0, false⟩
  | Except.ok (schemaDef, targetPath) =>
    processEmissions env beh schemaDef targetPath hasCallback callbackFails emissions files0 []

/-! #### Helper lemmas about the runners -/

/-- A cached write never fails under the all-succeed behaviour. -/
theorem writeFile_noFail_err (fs0 cache : List (String × String)) (p ct : String)
    (dh : Option String) (rmB : Bool) :
    (writeFileWithWrittenFilesCache noFailFs fs0 cache p ct dh rmB).err = none := by
  unfold writeFileWithWrittenFilesCache noFailFs
  split_ifs <;> simp_all

/-- `runBatch` succeeds with no typed error under the all-succeed
behaviour, provided every write task carries a defined content. -/
theorem runBatch_noFail : ∀ (ts : List BatchTask) (st : WriteOutcome),
    (∀ p c dh rmB, BatchTask.writeTask p c dh rmB ∈ ts → c.isSome = true) →
    st.err = none →
    ∃ st', runBatch noFailFs ts st = some st' ∧ st'.err = none
  | [], st, _, hst => ⟨st, rfl, hst⟩
  | t :: ts, st, hsome, hst => by
    match t with
    | BatchTask.unitTask =>
      simp only [runBatch, hst, Option.isSome_none, Bool.false_eq_true, if_false]
      exact runBatch_noFail ts st (fun p c dh rmB hm => hsome p c dh rmB (List.mem_cons_of_mem _ hm)) hst
    | BatchTask.bundleTask outfile =>
      simp only [runBatch, hst, Option.isSome_none, Bool.false_eq_true, if_false, noFailFs]
      exact runBatch_noFail ts _ (fun p c dh rmB hm => hsome p c dh rmB (List.mem_cons_of_mem _ hm)) rfl
    | BatchTask.writeTask p c dh rmB =>
      have hc : c.isSome = true := hsome p c dh rmB (List.mem_cons_self _ _)
      match c, hc with
      | some content, _ =>
        simp only [runBatch, hst, Option.isSome_none, Bool.false_eq_true, if_false]
        exact runBatch_noFail ts _
          (fun p' c' dh' rmB' hm => hsome p' c' dh' rmB' (List.mem_cons_of_mem _ hm))
          (writeFile_noFail_err _ _ _ _ _ _)

/-- `runMkdir` keeps the no-error state under the all-succeed behaviour. -/
theorem runMkdir_noFail_err (st : WriteOutcome) (p : String) (h : st.err = none) :
    (runMkdir noFailFs st p).err = none := by
  simp [runMkdir, h, noFailFs]

/-- Folding `runMkdir` over any path list keeps the no-error state. -/
theorem foldl_runMkdir_noFail_err : ∀ (paths : List String) (st : WriteOutcome),
    st.err = none → (List.foldl (runMkdir noFailFs) st paths).err = none
  | [], _, h => h
  | p :: paths, st, h =>
    foldl_runMkdir_noFail_err paths (runMkdir noFailFs st p) (runMkdir_noFail_err st p h)

/-- `runPlainWrite` keeps the no-error state under the all-succeed
behaviour. -/
theorem runPlainWrite_noFail_err (st : WriteOutcome) (p ct : String) (h : st.err = none) :
    (runPlainWrite noFailFs st p ct).err = none := by
  simp [runPlainWrite, h, noFailFs]

/-- A barrel file with defined content forces the same type's aggregate
content to be defined as well (both are undefined exactly for a singleton
type with zero matching documents). -/
theorem writeBatchTasks_content_some (env : GenEnv) (schemaDef : SchemaDef) (cache : Cache)
    (targetPath : String) (htotal : synthesisTotal env schemaDef cache targetPath = true) :
    ∀ p c dh rmB, BatchTask.writeTask p c dh rmB ∈ writeBatchTasks env schemaDef cache
      targetPath → c.isSome = true := by
  intro p c dh rmB hmem
  unfold writeBatchTasks at hmem
  simp only [List.mem_append, List.mem_cons, List.mem_map, List.not_mem_nil, or_false,
    List.mem_singleton] at hmem
  unfold synthesisTotal at htotal
  rw [List.all_eq_true] at htotal
  obtain ((((h | h | h | h) | ⟨a, ha, heq⟩) | ⟨a, ha, heq⟩) | ⟨a, ha, heq⟩) | hlast := hmem
  · cases h; rfl
  · cases h; rfl
  · cases h; rfl
  · cases h; rfl
  · -- a barrel file: its content is defined by `htotal`
    have hc := htotal a ha
    cases heq
    simpa using hc
  · -- an individual JSON file: content is always `some`
    simp only [individualDataJsonFiles, List.mem_map] at ha
    obtain ⟨item, _, rfl⟩ := ha
    cases heq; rfl
  · -- an aggregate JSON file: defined because the same type's barrel is
    simp only [collectionDataJsonFiles, List.mem_map] at ha
    obtain ⟨documentDef, hdef, rfl⟩ := ha
    cases heq
    by_cases hsing : documentDef.isSingleton
    · have hb := htotal
        ⟨filePathJoin [targetPath, "generated", documentDef.name, "_index.mjs"],
          makeDataExportFile env.autogeneratedNote (env.getDataVariableName documentDef)
            documentDef
            (((cache.cacheItemsMap.map CacheItem.document).filter
              (fun d => d.typeName == documentDef.name)).map Document.docId)
            env.assertStatement, none⟩
        (by
          unfold dataBarrelFiles
          exact List.mem_map_of_mem _ hdef)
      simp only [makeDataExportFile, hsing, if_true] at hb
      cases hh : ((cache.cacheItemsMap.map CacheItem.document).filter
          (fun d => d.typeName == documentDef.name)).head? with
      | none =>
        simp [List.head?_map, hh] at hb
      | some d => simp [hsing, hh]
    · simp [hsing]
  · -- the final conditional task is never a write task
    split_ifs at hlast

/-- Under the all-succeed behaviour and total synthesis,
`writeFilesForCache` completes without defect and without typed error. -/
theorem writeFilesForCache_noFail (env : GenEnv) (schemaDef : SchemaDef) (cache : Cache)
    (targetPath : String) (files0 wcache0 : List (String × String))
    (htotal : synthesisTotal env schemaDef cache targetPath = true) :
    ∃ st, writeFilesForCache env noFailFs schemaDef cache targetPath files0 wcache0 = some st ∧
      st.err = none := by
  unfold writeFilesForCache
  rw [htotal]
  simp only [if_true]
  apply runBatch_noFail _ _ (writeBatchTasks_content_some env schemaDef cache targetPath htotal)
  apply foldl_runMkdir_noFail_err
  split_ifs with hdbg
  · exact runPlainWrite_noFail_err _ _ _ (runPlainWrite_noFail_err _ _ _
      (runMkdir_noFail_err _ _ rfl))
  · rfl

/-- With no callback configured, the callback is never invoked. -/
theorem processEmissions_count_zero (env : GenEnv) (beh : FsBehavior) (schemaDef : SchemaDef)
    (targetPath : String) (cf : Bool) :
    ∀ (es : List (Except GenError Cache)) (files wcache : List (String × String)),
      (processEmissions env beh schemaDef targetPath false cf es files wcache).callbackCount = 0
  | [], _, _ => rfl
  | Except.error err :: es, files, wcache => by
    simp only [processEmissions]
    simpa using processEmissions_count_zero env beh schemaDef targetPath cf es files wcache
  | Except.ok cache :: es, files, wcache => by
    simp only [processEmissions]
    cases hw : writeFilesForCache env beh schemaDef cache targetPath files wcache with
    | none => rfl
    | some st =>
      simpa using processEmissions_count_zero env beh schemaDef targetPath cf es st.files
        st.cache

/-- With a callback configured, the callback is invoked exactly once per
emitted element. -/
theorem processEmissions_count_len (env : GenEnv) (beh : FsBehavior) (schemaDef : SchemaDef)
    (targetPath : String) (cf : Bool) :
    ∀ (es : List (Except GenError Cache)) (files wcache : List (String × String)),
      (processEmissions env beh schemaDef targetPath true cf es files wcache).callbackCount =
        (processEmissions env beh schemaDef targetPath true cf es files wcache).outputs.length
  | [], _, _ => rfl
  | Except.error err :: es, files, wcache => by
    simp only [processEmissions, List.length_cons, if_true]
    rw [processEmissions_count_len env beh schemaDef targetPath cf es files wcache]
    omega
  | Except.ok cache :: es, files, wcache => by
    simp only [processEmissions]
    cases hw : writeFilesForCache env beh schemaDef cache targetPath files wcache with
    | none => rfl
    | some st =>
      simp only [List.length_cons, if_true]
      rw [processEmissions_count_len env beh schemaDef targetPath cf es st.files st.cache]
      omega

/-- With a configured callback that fails, every emitted element is the
wrapped callback error (the `T.fold` replaces the cycle's outcome). -/
theorem processEmissions_cb_fail (env : GenEnv) (beh : FsBehavior) (schemaDef : SchemaDef)
    (targetPath : String) :
    ∀ (es : List (Except GenError Cache)) (files wcache : List (String × String)),
      ∀ o ∈ (processEmissions env beh schemaDef targetPath true true es files wcache).outputs,
        o = Except.error GenError.successCallbackError
  | [], _, _, o, ho => by simp [processEmissions] at ho
  | Except.error err :: es, files, wcache, o, ho => by
    simp only [processEmissions, List.mem_cons] at ho
    rcases ho with rfl | ho
    · rfl
    · exact processEmissions_cb_fail env beh schemaDef targetPath es files wcache o ho
  | Except.ok cache :: es, files, wcache, o, ho => by
    simp only [processEmissions] at ho
    cases hw : writeFilesForCache env beh schemaDef cache targetPath files wcache with
    | none => rw [hw] at ho; simp at ho
    | some st =>
      rw [hw] at ho
      simp only [List.mem_cons] at ho
      rcases ho with rfl | ho
      · rfl
      · exact processEmissions_cb_fail env beh schemaDef targetPath es st.files st.cache o ho

/-- Under the all-succeed behaviour, a succeeding callback, and total
synthesis for every fetched cache, the emitted elements are exactly the
per-emission outcomes, in order: a fetch failure stays a `Left` at its
position, a successful cycle becomes `Right` of its document count; the
stream never dies. -/
theorem processEmissions_noFail (env : GenEnv) (schemaDef : SchemaDef) (targetPath : String)
    (hc : Bool) :
    ∀ (es : List (Except GenError Cache)) (files wcache : List (String × String)),
      (∀ cache, Except.ok cache ∈ es →
        synthesisTotal env schemaDef cache targetPath = true) →
      (processEmissions env noFailFs schemaDef targetPath hc false es files wcache).outputs =
        es.map (fun e => match e with
          | Except.error err => Except.error err
          | Except.ok cache => Except.ok ⟨cache.cacheItemsMap.length⟩) ∧
      (processEmissions env noFailFs schemaDef targetPath hc false es files wcache).died = false
  | [], _, _, _ => ⟨rfl, rfl⟩
  | Except.error err :: es, files, wcache, htotal => by
    have ih := processEmissions_noFail env schemaDef targetPath hc es files wcache
      (fun c hm => htotal c (List.mem_cons_of_mem _ hm))
    simp only [processEmissions, List.map_cons, Bool.and_false, Bool.false_eq_true, if_false]
    exact ⟨by rw [ih.1], ih.2⟩
  | Except.ok cache :: es, files, wcache, htotal => by
    obtain ⟨st, hw, herr⟩ := writeFilesForCache_noFail env schemaDef cache targetPath files
      wcache (htotal cache (List.mem_cons_self _ _))
    have ih := processEmissions_noFail env schemaDef targetPath hc es st.files st.cache
      (fun c hm => htotal c (List.mem_cons_of_mem _ hm))
    simp only [processEmissions, hw, herr, List.map_cons, Bool.and_false, Bool.false_eq_true,
      if_false]
    exact ⟨by rw [ih.1], ih.2⟩

/-- C4 counterexample: with a configured (and succeeding) success callback,
a cycle whose data fetch already failed still invokes the callback — the
callback stage is `S.mapEffect`, which runs on `Left` elements too.  So
the callback is **not** "not invoked when the cycle has already failed". -/
theorem callback_runs_on_failed_cycle :
    (generateDotpkgStream envProd noFailFs (Except.ok (schemaPost, "pkg"))
        [Except.error GenError.sourceFetchDataError] true false []).callbackCount = 1 ∧
    (generateDotpkgStream envProd noFailFs (Except.ok (schemaPost, "pkg"))
        [Except.error GenError.sourceFetchDataError] true false []).outputs =
      [Except.error GenError.sourceFetchDataError] := by
  exact ⟨rfl, rfl⟩

/-- C4 (amended): the success callback never runs when input resolution
failed and never runs when no callback is configured; otherwise it runs
exactly once per emitted cycle element — including cycles whose data fetch
or write batch failed — and a failing callback replaces the cycle's
outcome with the wrapped callback error. -/
theorem successCallback_invocations (env : GenEnv) (beh : FsBehavior) (schemaDef : SchemaDef)
    (targetPath : String) (emissions : List (Except GenError Cache))
    (files0 : List (String × String)) (cf : Bool) (err : GenError)
    (rr : Except GenError (SchemaDef × String)) :
    (generateDotpkgStream env beh (Except.error err) emissions true cf files0).callbackCount
        = 0 ∧
    (generateDotpkgStream env beh rr emissions false cf files0).callbackCount = 0 ∧
    (generateDotpkgStream env beh (Except.ok (schemaDef, targetPath)) emissions true cf
        files0).callbackCount =
      (generateDotpkgStream env beh (Except.ok (schemaDef, targetPath)) emissions true cf
        files0).outputs.length ∧
    ∀ o ∈ (generateDotpkgStream env beh (Except.ok (schemaDef, targetPath)) emissions true
        true files0).outputs, o = Except.error GenError.successCallbackError := by
  refine ⟨rfl, ?_, ?_, ?_⟩
  · cases rr with
    | error e => rfl
    | ok p =>
      obtain ⟨sd, tp⟩ := p
      exact processEmissions_count_zero env beh sd tp cf emissions files0 []
  · exact processEmissions_count_len env beh schemaDef targetPath cf emissions files0 []
  · exact processEmissions_cb_fail env beh schemaDef targetPath emissions files0 []

/-- Concrete instance of `successCallback_invocations`: a failing callback
replaces a failed fetch cycle's outcome with the callback error. -/
theorem successCallback_invocations_witness :
    (generateDotpkgStream envProd noFailFs (Except.ok (schemaPost, "pkg"))
        [Except.error GenError.sourceFetchDataError] true true []).outputs.getD 0
      (Except.ok ⟨0⟩) = Except.error GenError.successCallbackError :=
  (successCallback_invocations envProd noFailFs schemaPost "pkg"
    [Except.error GenError.sourceFetchDataError] [] true GenError.sourceFetchDataError
    (Except.ok (schemaPost, "pkg"))).2.2.2 _ (List.mem_cons_self _ _)

/-- C8: the streaming entry point surfaces each cycle's outcome as an
`Either` value in the output sequence: a typed failure emission yields a
`Left` at its position and does not terminate the stream (later emissions
are still processed, in order), and a successful cycle yields `Right` of
the document count — the number of entries of the cache's `cacheItemsMap`.
Stated for cycles whose artifact synthesis is total and whose filesystem
and callback succeed. -/
theorem stream_emits_cycle_outcomes (env : GenEnv) (schemaDef : SchemaDef)
    (targetPath : String) (emissions : List (Except GenError Cache))
    (files0 : List (String × String)) (hc : Bool)
    (htotal : ∀ cache, Except.ok cache ∈ emissions →
      synthesisTotal env schemaDef cache targetPath = true) :
    (generateDotpkgStream env noFailFs (Except.ok (schemaDef, targetPath)) emissions hc false
        files0).outputs =
      emissions.map (fun e => match e with
        | Except.error err => Except.error err
        | Except.ok cache => Except.ok ⟨cache.cacheItemsMap.length⟩) ∧
    (generateDotpkgStream env noFailFs (Except.ok (schemaDef, targetPath)) emissions hc false
        files0).died = false :=
  processEmissions_noFail env schemaDef targetPath hc emissions files0 [] htotal

/-- Concrete instance of `stream_emits_cycle_outcomes`: a failed fetch
emission is followed by a successful one; the failure appears in place and
the stream continues, emitting the success with document count 1. -/
theorem stream_emits_cycle_outcomes_witness :
    (generateDotpkgStream envProd noFailFs (Except.ok (schemaPost, "pkg"))
        [Except.error GenError.sourceFetchDataError, Except.ok cacheA] true false []).outputs =
      [Except.error GenError.sourceFetchDataError, Except.ok ⟨1⟩] :=
  (stream_emits_cycle_outcomes envProd schemaPost "pkg"
    [Except.error GenError.sourceFetchDataError, Except.ok cacheA] [] true (by
      intro cache hmem
      simp only [List.mem_cons, List.not_mem_nil, or_false] at hmem
      rcases hmem with h | h
      · exact Except.noConfusion h
      · cases h
        rfl)).1

end Gen
